import Mathlib

/-!
Verification of the weather-demo response-shaping core
(`src/app/api/weather/route.ts`): the WMO condition-code mapper, the
geocode resolver, and the forecast normalizer inside the `GET` handler.

Numbers are modelled as exact rationals (`ℚ`).  JavaScript's
`Math.round` rounds to the nearest integer with ties toward `+∞`,
i.e. `⌊x + 1/2⌋`.  Provider series are lists; an index read past the
end of a list (which in JavaScript yields `undefined`/`NaN`) is
modelled with `List.getD`, and the theorems carry length hypotheses
matching the provider contract (≥ 24 hourly points, ≥ 7 daily points)
so the defaults are never exercised.  Fields that the code guards with
a truthiness check (`||`) are modelled as `Option` plus an explicit
empty-string / zero test.
-/

/-- JavaScript `Math.round`: nearest integer, ties toward `+∞`. -/
def jsRound (x : ℚ) : ℤ := ⌊x + 1/2⌋

/-- The one-decimal rounding used throughout the normalizer:
`Math.round(v * 10) / 10`. -/
def round1 (v : ℚ) : ℚ := (jsRound (v * 10) : ℚ) / 10

/-- The `WMO_WEATHER_CODES` table from route.ts, as an association list
mirroring the `Record<number, string>` literal. -/
def WMO_WEATHER_CODES : List (Int × String) :=
  [(0, "Clear"), (1, "Mainly Clear"), (2, "Partly Cloudy"), (3, "Cloudy"),
   (45, "Foggy"), (48, "Foggy"),
   (51, "Light Drizzle"), (53, "Drizzle"), (55, "Heavy Drizzle"),
   (56, "Freezing Drizzle"), (57, "Freezing Drizzle"),
   (61, "Light Rain"), (63, "Rain"), (65, "Heavy Rain"),
   (66, "Freezing Rain"), (67, "Freezing Rain"),
   (71, "Light Snow"), (73, "Snow"), (75, "Heavy Snow"), (77, "Snow Grains"),
   (80, "Light Rain Showers"), (81, "Rain Showers"), (82, "Heavy Rain Showers"),
   (85, "Light Snow Showers"), (86, "Snow Showers"),
   (95, "Thunderstorm"), (96, "Thunderstorm with Hail"),
   (99, "Thunderstorm with Hail")]

/-- The mapper `getWeatherCondition(code)`: `WMO_WEATHER_CODES[code] || 'Unknown'`.
The `||` falls through to `"Unknown"` when the lookup misses
(`undefined`) or would produce a falsy (empty) string. -/
def getWeatherCondition (code : Int) : String :=
  match WMO_WEATHER_CODES.lookup code with
  | some s => if s = "" then "Unknown" else s
  | none => "Unknown"

/-- One geocoding match as route.ts reads it (`results[0]`): coordinates
plus optional name parts. -/
structure GeoEntry where
  latitude : ℚ
  longitude : ℚ
  name : Option String
  admin1 : Option String
  country : Option String

/-- The parsed geocoding payload: its `results` array (a missing
`results` field behaves like an empty array in the code's guard). -/
structure GeocodeData where
  results : List GeoEntry

/-- Outcome of the geocoding fetch: a parsed payload, a non-OK HTTP
response, or a thrown fetch/parse error (caught by the `catch`). -/
inductive GeocodeOutcome where
  | success (data : GeocodeData)
  | httpError
  | transportError

/-- The value `getCoordinatesFromCity` resolves on success. -/
structure GeoResult where
  lat : ℚ
  lon : ℚ
  location : String

/-- The guard `if (x) parts.push(x)`: a part is kept only when present
and truthy (non-empty). -/
def pushIfTruthy (o : Option String) : List String :=
  match o with
  | some s => if s = "" then [] else [s]
  | none => []

/-- The resolver `getCoordinatesFromCity` from route.ts: `null` on a non-OK
response, a thrown error, or zero matches; otherwise coordinates and a
display name assembled from name/admin1/country joined by `", "`, with
the raw city name as fallback when the join is empty. -/
def getCoordinatesFromCity (cityName : String) (outcome : GeocodeOutcome) :
    Option GeoResult :=
  match outcome with
  | .httpError => none
  | .transportError => none
  | .success data =>
    match data.results with
    | [] => none
    | r :: _ =>
      let parts := pushIfTruthy r.name ++ pushIfTruthy r.admin1 ++ pushIfTruthy r.country
      let joined := String.intercalate ", " parts
      some { lat := r.latitude, lon := r.longitude,
             location := if joined = "" then cityName else joined }

/-- The `weatherData.current` section as the code reads it. -/
structure CurrentData where
  time : String
  temperature_2m : ℚ
  weather_code : Int
  uv_index : Option ℚ

/-- The `weatherData.hourly` section: parallel per-hour series. -/
structure HourlyData where
  time : List String
  temperature_2m : List ℚ
  weather_code : List Int

/-- The `weatherData.daily` section: parallel per-day series. -/
structure DailyData where
  time : List String
  temperature_2m_max : List ℚ
  temperature_2m_min : List ℚ
  weather_code : List Int
  uv_index_max : List ℚ

/-- The parsed forecast payload; each section may be missing
(`undefined`), in which case the code's field accesses throw. -/
structure WeatherData where
  current : Option CurrentData
  hourly : Option HourlyData
  daily : Option DailyData
  timezone : Option String

/-- The `Weather` value type of the response contract. -/
structure Weather where
  time : String
  temperature : ℚ
  temperature_min : ℚ
  temperature_max : ℚ
  condition : String
  uv_index : ℚ
  deriving DecidableEq

/-- The `WeatherResponse` value type of the response contract. -/
structure WeatherResponse where
  location : String
  timezone : String
  current : Weather
  hourly : List Weather
  daily : List Weather
  deriving DecidableEq

/-- The idiom `Math.round(x) || 0`: the rounded value, with a falsy result
(`0`, `-0`, or `NaN` from a missing reading) coerced to `0`. -/
def jsRoundOrZero (o : Option ℚ) : ℤ :=
  match o with
  | none => 0
  | some v => if jsRound v = 0 then 0 else jsRound v

/-- One hourly entry (loop body of the 24-iteration hourly loop). -/
def hourlyEntry (hr : HourlyData) (i : ℕ) : Weather :=
  let temp := hr.temperature_2m.getD i 0
  { time := hr.time.getD i "",
    temperature := round1 temp,
    temperature_min := round1 temp,
    temperature_max := round1 temp,
    condition := getWeatherCondition (hr.weather_code.getD i 0),
    uv_index := 0 }

/-- One daily entry (loop body of the 7-iteration daily loop):
`avgTemp = (tempMin + tempMax) / 2` is computed from the raw provider
values and rounded once. -/
def dailyEntry (dy : DailyData) (i : ℕ) : Weather :=
  let tempMin := dy.temperature_2m_min.getD i 0
  let tempMax := dy.temperature_2m_max.getD i 0
  let avgTemp := (tempMin + tempMax) / 2
  { time := dy.time.getD i "",
    temperature := round1 avgTemp,
    temperature_min := round1 tempMin,
    temperature_max := round1 tempMax,
    condition := getWeatherCondition (dy.weather_code.getD i 0),
    uv_index := (jsRoundOrZero dy.uv_index_max[i]? : ℚ) }

/-- The normalization step of `GET`: builds the `WeatherResponse` from a
parsed payload, or fails (`none`, modelling the thrown `TypeError`
caught by the handler) when any of the current/hourly/daily sections is
missing.  `timezone` falls back to `"UTC"` when absent or empty
(`weatherData.timezone || 'UTC'`). -/
def normalizeForecast (location : String) (wd : WeatherData) : Option WeatherResponse :=
  match wd.current, wd.hourly, wd.daily with
  | some cur, some hr, some dy =>
    some { location := location,
           timezone := match wd.timezone with
                       | some tz => if tz = "" then "UTC" else tz
                       | none => "UTC",
           current := { time := cur.time,
                        temperature := round1 cur.temperature_2m,
                        temperature_min := round1 (dy.temperature_2m_min.getD 0 0),
                        temperature_max := round1 (dy.temperature_2m_max.getD 0 0),
                        condition := getWeatherCondition cur.weather_code,
                        uv_index := (jsRoundOrZero cur.uv_index : ℚ) },
           hourly := (List.range 24).map (hourlyEntry hr),
           daily := (List.range 7).map (dailyEntry dy) }
  | _, _, _ => none

/-- Outcome of the forecast fetch, as seen by the handler. -/
inductive WeatherOutcome where
  | success (data : WeatherData)
  | httpError
  | transportError

/-- An HTTP response from the route handler: a JSON `WeatherResponse`
body, or an error body with a status code. -/
inductive HttpResponse where
  | ok (body : WeatherResponse)
  | error (status : ℕ) (message : String)
  deriving DecidableEq

/-- The `GET` handler of route.ts over the outcomes of its two outbound
calls.  `!locationParam` is true for a missing parameter and for the
empty string; any error thrown after the parameter check (non-OK
forecast response, transport failure, missing payload section) lands in
the `catch` and yields the 500 body. -/
def GET (locationParam : Option String) (geo : GeocodeOutcome)
    (wx : WeatherOutcome) : HttpResponse :=
  match locationParam with
  | none => .error 400 "Missing required parameter: location"
  | some loc =>
    if loc = "" then .error 400 "Missing required parameter: location"
    else
      match getCoordinatesFromCity loc geo with
      | none => .error 404 ("Location not found: " ++ loc)
      | some g =>
        match wx with
        | .httpError => .error 500 "Failed to fetch weather data"
        | .transportError => .error 500 "Failed to fetch weather data"
        | .success wd =>
          match normalizeForecast g.location wd with
          | none => .error 500 "Failed to fetch weather data"
          | some resp => .ok resp

/-- Half-away-from-zero rounding to the nearest integer, following the
spec's stated tie-breaking rule (for comparison with `jsRound`). -/
def roundHalfAwayFromZero (x : ℚ) : ℤ :=
  if 0 ≤ x then ⌊x + 1/2⌋ else -⌊-x + 1/2⌋

/-- One-decimal rounding as the spec's words describe it:
`round(value × 10) / 10` with half-away-from-zero ties (for comparison
with `round1`). -/
def round1SpecAwayFromZero (v : ℚ) : ℚ :=
  (roundHalfAwayFromZero (v * 10) : ℚ) / 10

/-- The daily temperature as the spec's words describe it: the
arithmetic mean of the already-rounded min and the already-rounded max,
rounded again to one decimal (for comparison with `dailyEntry`). -/
def dailyTempSpec (tempMin tempMax : ℚ) : ℚ :=
  round1 ((round1 tempMin + round1 tempMax) / 2)

/-- A concrete current section: reading `1/4` degrees, code 95, UV 3. -/
def curEx : CurrentData :=
  { time := "2024-01-01T12:00",
    temperature_2m := 1/4,
    weather_code := 95,
    uv_index := some 3 }

/-- A concrete hourly section with 24 points. -/
def hrEx : HourlyData :=
  { time := List.replicate 24 "2024-01-01T12:00",
    temperature_2m := List.replicate 24 (1/4),
    weather_code := List.replicate 24 0 }

/-- A concrete daily section with 7 points, min `1/4` and max `3/4`. -/
def dyEx : DailyData :=
  { time := List.replicate 7 "2024-01-01",
    temperature_2m_max := List.replicate 7 (3/4),
    temperature_2m_min := List.replicate 7 (1/4),
    weather_code := List.replicate 7 61,
    uv_index_max := List.replicate 7 5 }

/-- A concrete well-formed provider payload: one current reading,
24 hourly points, 7 daily points. -/
def wdEx : WeatherData :=
  { current := some curEx, hourly := some hrEx, daily := some dyEx,
    timezone := some "Europe/London" }

/-- A concrete provider payload identical to `wdEx` except that the
current UV reading is `-2`. -/
def wdNegUv : WeatherData :=
  { wdEx with
    current := some { curEx with uv_index := some (-2) } }

/-- A concrete geocoding payload with a single match. -/
def geoEx : GeocodeData :=
  { results := [{ latitude := 0, longitude := 0,
                  name := some "Atlantis", admin1 := none, country := none }] }

theorem lookup_forall {α β : Type} [BEq α] (P : β → Prop) (l : List (α × β))
    (hl : ∀ p ∈ l, P p.2) (c : α) (s : β) (h : l.lookup c = some s) : P s := by
  induction l with
  | nil => simp [List.lookup] at h
  | cons hd tl ih =>
    obtain ⟨k, v⟩ := hd
    rw [List.lookup] at h
    by_cases hc : c == k
    · simp [hc] at h
      subst h
      exact hl (k, v) (List.mem_cons_self _ _)
    · simp [hc] at h
      exact ih (fun p hp => hl p (List.mem_cons_of_mem _ hp)) h

theorem wmo_vals_nonempty : ∀ p ∈ WMO_WEATHER_CODES, p.2 ≠ "" := by decide

/-- C3: the condition-code mapper is total over the integers: every
code yields a non-empty string; a code present in the WMO table yields
its mapped label, and a code absent from the table yields the literal
`"Unknown"`. -/
theorem getWeatherCondition_total (code : Int) :
    getWeatherCondition code ≠ "" ∧
    (∀ s, WMO_WEATHER_CODES.lookup code = some s → getWeatherCondition code = s) ∧
    (WMO_WEATHER_CODES.lookup code = none → getWeatherCondition code = "Unknown") := by
  unfold getWeatherCondition
  cases h : WMO_WEATHER_CODES.lookup code with
  | none => simp
  | some s =>
    have hs : s ≠ "" := lookup_forall (fun x => x ≠ "") _ wmo_vals_nonempty _ _ h
    simp [hs]

/-- Witness for C3: the known code 95 maps to its label and the unknown
code -3 maps to `"Unknown"`. -/
theorem getWeatherCondition_total_witness :
    getWeatherCondition 95 = "Thunderstorm" ∧ getWeatherCondition (-3) = "Unknown" :=
  ⟨(getWeatherCondition_total 95).2.1 "Thunderstorm" (by decide),
   (getWeatherCondition_total (-3)).2.2 (by decide)⟩

/-- C9: the one-decimal rounding `round1` is idempotent on the exact
rationals: rounding an already-rounded value changes nothing. -/
theorem round1_idempotent (v : ℚ) : round1 (round1 v) = round1 v := by
  unfold round1
  congr 1
  have h1 : (jsRound (v * 10) : ℚ) / 10 * 10 = (jsRound (v * 10) : ℚ) := by
    field_simp
  rw [h1]
  unfold jsRound
  norm_num

/-- C4 (amended): `round1` breaks ties toward `+∞` (JavaScript
`Math.round` semantics): a value whose scaled fractional part is
exactly `.5` rounds strictly upward to the next tenth — for negative
values this is toward zero, not away from it. -/
theorem round1_tie_toward_pos_infinity (k : ℤ) :
    round1 (((2 * k + 1 : ℤ) : ℚ) / 20) = ((k + 1 : ℤ) : ℚ) / 10 ∧
    ((2 * k + 1 : ℤ) : ℚ) / 20 < ((k + 1 : ℤ) : ℚ) / 10 := by
  constructor
  · unfold round1 jsRound
    have h : ((2 * k + 1 : ℤ) : ℚ) / 20 * 10 + 1/2 = ((k + 1 : ℤ) : ℚ) := by
      push_cast
      ring
    rw [h, Int.floor_intCast]
  · push_cast
    linarith

/-- Counterexample to C4 as stated: at `v = -1/4` (scaled value
`-2.5`), `round1` yields `-0.2` (toward zero) while the claimed
half-away-from-zero rule yields `-0.3`. -/
theorem round1_not_half_away_from_zero :
    round1 (-1/4) = -1/5 ∧ round1SpecAwayFromZero (-1/4) = -3/10 ∧
    round1 (-1/4) ≠ round1SpecAwayFromZero (-1/4) := by
  norm_num [round1, jsRound, round1SpecAwayFromZero, roundHalfAwayFromZero]

/-- C10: a request whose `location` parameter is the empty string is
handled exactly like a request with the parameter absent — HTTP 400
with the same error body, irrespective of either outbound call's
outcome (neither outcome is consulted). -/
theorem emptyLocation_as_missing (geo : GeocodeOutcome) (wx : WeatherOutcome) :
    GET (some "") geo wx = .error 400 "Missing required parameter: location" ∧
    GET (some "") geo wx = GET none geo wx :=
  ⟨rfl, rfl⟩

/-- C8: when the geocoding service returns zero matches, a non-OK
status, or the call fails at the transport level, the resolver yields
`none` and the handler answers HTTP 404 (never 500), whatever the
forecast outcome. -/
theorem geocodeFailure_404 (loc : String) (hloc : loc ≠ "")
    (geo : GeocodeOutcome) (wx : WeatherOutcome)
    (h : geo = .httpError ∨ geo = .transportError ∨ geo = .success ⟨[]⟩) :
    getCoordinatesFromCity loc geo = none ∧
    GET (some loc) geo wx = .error 404 ("Location not found: " ++ loc) := by
  have hres : getCoordinatesFromCity loc geo = none := by
    rcases h with h | h | h <;> subst h <;> rfl
  refine ⟨hres, ?_⟩
  simp [GET, hloc, hres]

/-- Witness for C8: a concrete unresolvable request answered with 404. -/
theorem geocodeFailure_404_witness :
    getCoordinatesFromCity "Atlantis" .httpError = none ∧
    GET (some "Atlantis") .httpError .httpError =
      .error 404 ("Location not found: " ++ "Atlantis") :=
  geocodeFailure_404 "Atlantis" (by decide) .httpError .httpError (Or.inl rfl)

theorem normalizeForecast_eq_none (l : String) (wd : WeatherData)
    (h : wd.current = none ∨ wd.hourly = none ∨ wd.daily = none) :
    normalizeForecast l wd = none := by
  obtain ⟨c, hr, dy, tz⟩ := wd
  cases c <;> cases hr <;> cases dy <;> simp_all [normalizeForecast]

/-- C7: once the location is present and geocoding has resolved, a
non-OK forecast response, a transport failure, or a payload missing any
of the current/hourly/daily sections makes the handler answer HTTP 500
with the generic error body — no `WeatherResponse` is emitted. -/
theorem upstreamFailure_500 (loc : String) (hloc : loc ≠ "")
    (geo : GeocodeOutcome) (wx : WeatherOutcome)
    (hgeo : (getCoordinatesFromCity loc geo).isSome)
    (h : wx = .httpError ∨ wx = .transportError ∨
         ∃ wd, wx = .success wd ∧
           (wd.current = none ∨ wd.hourly = none ∨ wd.daily = none)) :
    GET (some loc) geo wx = .error 500 "Failed to fetch weather data" := by
  obtain ⟨g, hg⟩ := Option.isSome_iff_exists.mp hgeo
  rcases h with h | h | ⟨wd, h, hwd⟩
  · subst h
    simp [GET, hloc, hg]
  · subst h
    simp [GET, hloc, hg]
  · subst h
    simp [GET, hloc, hg, normalizeForecast_eq_none _ _ hwd]

/-- Witness for C7: a concrete request whose forecast fetch comes back
non-OK is answered with the 500 body. -/
theorem upstreamFailure_500_witness :
    GET (some "Atlantis") (.success geoEx) .httpError =
      .error 500 "Failed to fetch weather data" :=
  upstreamFailure_500 "Atlantis" (by decide) (.success geoEx) .httpError
    (by rfl) (Or.inl rfl)

theorem normalizeForecast_eq_some (loc : String) (wd : WeatherData)
    (cur : CurrentData) (hr : HourlyData) (dy : DailyData)
    (hc : wd.current = some cur) (hh : wd.hourly = some hr)
    (hd : wd.daily = some dy) :
    normalizeForecast loc wd =
      some { location := loc,
             timezone := match wd.timezone with
                         | some tz => if tz = "" then "UTC" else tz
                         | none => "UTC",
             current := { time := cur.time,
                          temperature := round1 cur.temperature_2m,
                          temperature_min := round1 (dy.temperature_2m_min.getD 0 0),
                          temperature_max := round1 (dy.temperature_2m_max.getD 0 0),
                          condition := getWeatherCondition cur.weather_code,
                          uv_index := (jsRoundOrZero cur.uv_index : ℚ) },
             hourly := (List.range 24).map (hourlyEntry hr),
             daily := (List.range 7).map (dailyEntry dy) } := by
  rcases wd with ⟨c, h1, d1, tz⟩
  obtain rfl : c = some cur := hc
  obtain rfl : h1 = some hr := hh
  obtain rfl : d1 = some dy := hd
  rfl

/-- C2: on a payload with all sections present and at least 24 hourly
points, the response's `hourly` is exactly the first 24 provider points
in order; each entry reads the provider's i-th timestamp verbatim, has
`temperature_min = temperature_max = temperature` equal to the i-th
reading rounded to one decimal, condition mapped from the i-th code,
and `uv_index = 0`. -/
theorem hourly_first24 (loc : String) (wd : WeatherData) (cur : CurrentData)
    (hr : HourlyData) (dy : DailyData)
    (hc : wd.current = some cur) (hh : wd.hourly = some hr) (hd : wd.daily = some dy)
    (ht : 24 ≤ hr.time.length) (htemp : 24 ≤ hr.temperature_2m.length)
    (hcode : 24 ≤ hr.weather_code.length) :
    ∃ resp, normalizeForecast loc wd = some resp ∧ resp.hourly.length = 24 ∧
      ∀ i, i < 24 →
        ∃ e t c, resp.hourly[i]? = some e ∧
          hr.temperature_2m[i]? = some t ∧ hr.weather_code[i]? = some c ∧
          hr.time[i]? = some e.time ∧
          e.temperature = round1 t ∧ e.temperature_min = e.temperature ∧
          e.temperature_max = e.temperature ∧
          e.condition = getWeatherCondition c ∧ e.uv_index = 0 := by
  refine ⟨_, normalizeForecast_eq_some loc wd cur hr dy hc hh hd, by simp, ?_⟩
  intro i hi
  have hia : i < hr.time.length := lt_of_lt_of_le hi ht
  have hib : i < hr.temperature_2m.length := lt_of_lt_of_le hi htemp
  have hic : i < hr.weather_code.length := lt_of_lt_of_le hi hcode
  refine ⟨hourlyEntry hr i, hr.temperature_2m[i], hr.weather_code[i],
    ?_, List.getElem?_eq_getElem hib, List.getElem?_eq_getElem hic, ?_, ?_, rfl, rfl, ?_, rfl⟩
  · simp [List.getElem?_map, List.getElem?_range hi]
  · rw [List.getElem?_eq_getElem hia]
    simp [hourlyEntry, List.getD_eq_getElem?_getD, List.getElem?_eq_getElem hia]
  · simp [hourlyEntry, List.getD_eq_getElem?_getD, List.getElem?_eq_getElem hib]
  · simp [hourlyEntry, List.getD_eq_getElem?_getD, List.getElem?_eq_getElem hic]

/-- Witness for C2: the hourly guarantees instantiated on the concrete
payload `wdEx`. -/
theorem hourly_first24_witness :
    ∃ resp, normalizeForecast "London" wdEx = some resp ∧ resp.hourly.length = 24 ∧
      ∀ i, i < 24 →
        ∃ e t c, resp.hourly[i]? = some e ∧
          hrEx.temperature_2m[i]? = some t ∧ hrEx.weather_code[i]? = some c ∧
          hrEx.time[i]? = some e.time ∧
          e.temperature = round1 t ∧ e.temperature_min = e.temperature ∧
          e.temperature_max = e.temperature ∧
          e.condition = getWeatherCondition c ∧ e.uv_index = 0 :=
  hourly_first24 "London" wdEx curEx hrEx dyEx rfl rfl rfl
    (by simp [hrEx]) (by simp [hrEx]) (by simp [hrEx])

/-- C1 (amended): on a payload with all sections present and at least
7 daily points, the response's `daily` is exactly the first 7 provider
points in order; each entry has `temperature_min`/`temperature_max`
equal to the provider's per-day min/max rounded to one decimal, and
`temperature` equal to the arithmetic mean of the *raw* min and max,
rounded once to one decimal. -/
theorem daily_first7 (loc : String) (wd : WeatherData) (cur : CurrentData)
    (hr : HourlyData) (dy : DailyData)
    (hc : wd.current = some cur) (hh : wd.hourly = some hr) (hd : wd.daily = some dy)
    (ht : 7 ≤ dy.time.length) (hmin : 7 ≤ dy.temperature_2m_min.length)
    (hmax : 7 ≤ dy.temperature_2m_max.length) :
    ∃ resp, normalizeForecast loc wd = some resp ∧ resp.daily.length = 7 ∧
      ∀ i, i < 7 →
        ∃ e mi ma, resp.daily[i]? = some e ∧
          dy.temperature_2m_min[i]? = some mi ∧ dy.temperature_2m_max[i]? = some ma ∧
          dy.time[i]? = some e.time ∧
          e.temperature_min = round1 mi ∧ e.temperature_max = round1 ma ∧
          e.temperature = round1 ((mi + ma) / 2) := by
  refine ⟨_, normalizeForecast_eq_some loc wd cur hr dy hc hh hd, by simp, ?_⟩
  intro i hi
  have hia : i < dy.time.length := lt_of_lt_of_le hi ht
  have hib : i < dy.temperature_2m_min.length := lt_of_lt_of_le hi hmin
  have hic : i < dy.temperature_2m_max.length := lt_of_lt_of_le hi hmax
  refine ⟨dailyEntry dy i, dy.temperature_2m_min[i], dy.temperature_2m_max[i],
    ?_, List.getElem?_eq_getElem hib, List.getElem?_eq_getElem hic, ?_, ?_, ?_, ?_⟩
  · simp [List.getElem?_map, List.getElem?_range hi]
  · rw [List.getElem?_eq_getElem hia]
    simp [dailyEntry, List.getD_eq_getElem?_getD, List.getElem?_eq_getElem hia]
  · simp [dailyEntry, List.getD_eq_getElem?_getD, List.getElem?_eq_getElem hib]
  · simp [dailyEntry, List.getD_eq_getElem?_getD, List.getElem?_eq_getElem hic]
  · simp [dailyEntry, List.getD_eq_getElem?_getD, List.getElem?_eq_getElem hib,
          List.getElem?_eq_getElem hic]

/-- Witness for C1 (amended): the daily guarantees instantiated on the
concrete payload `wdEx`. -/
theorem daily_first7_witness :
    ∃ resp, normalizeForecast "London" wdEx = some resp ∧ resp.daily.length = 7 ∧
      ∀ i, i < 7 →
        ∃ e mi ma, resp.daily[i]? = some e ∧
          dyEx.temperature_2m_min[i]? = some mi ∧ dyEx.temperature_2m_max[i]? = some ma ∧
          dyEx.time[i]? = some e.time ∧
          e.temperature_min = round1 mi ∧ e.temperature_max = round1 ma ∧
          e.temperature = round1 ((mi + ma) / 2) :=
  daily_first7 "London" wdEx curEx hrEx dyEx rfl rfl rfl
    (by simp [dyEx]) (by simp [dyEx]) (by simp [dyEx])

/-- Counterexample to C1 as stated: on `wdEx` (every day has raw min
`1/4` and max `3/4`) the code's first daily temperature is
`round1((1/4 + 3/4)/2) = 1/2`, while the claimed
mean-of-already-rounded rule gives `round1((0.3 + 0.8)/2) = 3/5`. -/
theorem daily_mean_not_from_rounded :
    ((normalizeForecast "London" wdEx).bind (fun r => r.daily[0]?)).map
        Weather.temperature = some (1/2) ∧
    dailyTempSpec (1/4) (3/4) = 3/5 ∧ ((1:ℚ)/2) ≠ 3/5 := by
  refine ⟨?_, ?_, by norm_num⟩
  · rw [normalizeForecast_eq_some "London" wdEx curEx hrEx dyEx rfl rfl rfl]
    simp [dailyEntry, dyEx, List.getD_eq_getElem?_getD]
    norm_num [round1, jsRound]
  · norm_num [dailyTempSpec, round1, jsRound]

theorem round1_mono {v w : ℚ} (h : v ≤ w) : round1 v ≤ round1 w := by
  unfold round1
  have hf : jsRound (v * 10) ≤ jsRound (w * 10) := by
    unfold jsRound
    exact Int.floor_le_floor (by linarith)
  have hc : ((jsRound (v * 10) : ℤ) : ℚ) ≤ ((jsRound (w * 10) : ℤ) : ℚ) := by
    exact_mod_cast hf
  linarith

theorem jsRound_nonneg {v : ℚ} (h : 0 ≤ v) : 0 ≤ jsRound v := by
  unfold jsRound
  exact Int.le_floor.mpr (by push_cast; linarith)

theorem jsRoundOrZero_nonneg {o : Option ℚ} (h : ∀ v, o = some v → 0 ≤ v) :
    0 ≤ jsRoundOrZero o := by
  unfold jsRoundOrZero
  cases o with
  | none => simp
  | some v =>
    have hv : 0 ≤ v := h v rfl
    by_cases hz : jsRound v = 0 <;> simp [hz, jsRound_nonneg hv]

/-- C5: on a payload with all sections present, at least 7 daily
points, and per-day min ≤ max, every `Weather` entry of the response
(current, each hourly, each daily) satisfies
`temperature_min ≤ temperature_max`. -/
theorem min_le_max_invariant (loc : String) (wd : WeatherData) (cur : CurrentData)
    (hr : HourlyData) (dy : DailyData)
    (hc : wd.current = some cur) (hh : wd.hourly = some hr) (hd : wd.daily = some dy)
    (hmin : 7 ≤ dy.temperature_2m_min.length) (hmax : 7 ≤ dy.temperature_2m_max.length)
    (hle : ∀ (i : ℕ) (mi ma : ℚ), dy.temperature_2m_min[i]? = some mi →
           dy.temperature_2m_max[i]? = some ma → mi ≤ ma) :
    ∃ resp, normalizeForecast loc wd = some resp ∧
      resp.current.temperature_min ≤ resp.current.temperature_max ∧
      (∀ e ∈ resp.hourly, e.temperature_min ≤ e.temperature_max) ∧
      (∀ e ∈ resp.daily, e.temperature_min ≤ e.temperature_max) := by
  have key : ∀ i, i < 7 →
      dy.temperature_2m_min.getD i 0 ≤ dy.temperature_2m_max.getD i 0 := by
    intro i hi
    have hib : i < dy.temperature_2m_min.length := lt_of_lt_of_le hi hmin
    have hic : i < dy.temperature_2m_max.length := lt_of_lt_of_le hi hmax
    have h1 := List.getElem?_eq_getElem hib
    have h2 := List.getElem?_eq_getElem hic
    have := hle i _ _ h1 h2
    simp [List.getD_eq_getElem?_getD, h1, h2, this]
  refine ⟨_, normalizeForecast_eq_some loc wd cur hr dy hc hh hd, ?_, ?_, ?_⟩
  · exact round1_mono (key 0 (by norm_num))
  · intro e he
    simp only [List.mem_map, List.mem_range] at he
    obtain ⟨i, _, rfl⟩ := he
    simp [hourlyEntry]
  · intro e he
    simp only [List.mem_map, List.mem_range] at he
    obtain ⟨i, hi, rfl⟩ := he
    simpa [dailyEntry] using round1_mono (key i hi)

/-- Witness for C5: the invariant instantiated on the concrete payload
`wdEx`. -/
theorem min_le_max_invariant_witness :
    ∃ resp, normalizeForecast "London" wdEx = some resp ∧
      resp.current.temperature_min ≤ resp.current.temperature_max ∧
      (∀ e ∈ resp.hourly, e.temperature_min ≤ e.temperature_max) ∧
      (∀ e ∈ resp.daily, e.temperature_min ≤ e.temperature_max) :=
  min_le_max_invariant "London" wdEx curEx hrEx dyEx rfl rfl rfl
    (by simp [dyEx]) (by simp [dyEx])
    (by intro i mi ma h1 h2
        have hmi := List.eq_of_mem_replicate (List.getElem?_mem h1)
        have hma := List.eq_of_mem_replicate (List.getElem?_mem h2)
        rw [hmi, hma]
        norm_num)

/-- C6 (amended): on a payload with all sections present whose UV
readings (the current `uv_index` when present, and every value of the
daily `uv_index_max` series) are nonnegative, every `Weather` entry of
the response has `uv_index ≥ 0`; hourly entries have `uv_index = 0`
unconditionally. -/
theorem uv_nonneg (loc : String) (wd : WeatherData) (cur : CurrentData)
    (hr : HourlyData) (dy : DailyData)
    (hc : wd.current = some cur) (hh : wd.hourly = some hr) (hd : wd.daily = some dy)
    (hcur : ∀ v : ℚ, cur.uv_index = some v → 0 ≤ v)
    (hdy : ∀ q ∈ dy.uv_index_max, 0 ≤ q) :
    ∃ resp, normalizeForecast loc wd = some resp ∧
      0 ≤ resp.current.uv_index ∧
      (∀ e ∈ resp.hourly, e.uv_index = 0) ∧
      (∀ e ∈ resp.daily, 0 ≤ e.uv_index) := by
  refine ⟨_, normalizeForecast_eq_some loc wd cur hr dy hc hh hd, ?_, ?_, ?_⟩
  · show (0 : ℚ) ≤ ((jsRoundOrZero cur.uv_index : ℤ) : ℚ)
    exact_mod_cast jsRoundOrZero_nonneg hcur
  · intro e he
    simp only [List.mem_map, List.mem_range] at he
    obtain ⟨i, _, rfl⟩ := he
    simp [hourlyEntry]
  · intro e he
    simp only [List.mem_map, List.mem_range] at he
    obtain ⟨i, _, rfl⟩ := he
    have : 0 ≤ jsRoundOrZero dy.uv_index_max[i]? :=
      jsRoundOrZero_nonneg (fun v hv => hdy v (List.getElem?_mem hv))
    simpa [dailyEntry] using this

/-- Witness for C6 (amended): the UV invariant instantiated on the
concrete payload `wdEx`. -/
theorem uv_nonneg_witness :
    ∃ resp, normalizeForecast "London" wdEx = some resp ∧
      0 ≤ resp.current.uv_index ∧
      (∀ e ∈ resp.hourly, e.uv_index = 0) ∧
      (∀ e ∈ resp.daily, 0 ≤ e.uv_index) :=
  uv_nonneg "London" wdEx curEx hrEx dyEx rfl rfl rfl
    (by intro v hv
        have : (3 : ℚ) = v := by simpa [curEx] using hv
        rw [← this]
        norm_num)
    (by intro q hq
        have := List.eq_of_mem_replicate hq
        rw [this]
        norm_num)

/-- Counterexample to C6 as stated: the normalizer accepts the payload
`wdNegUv`, whose current UV reading is `-2`, and emits
`uv_index = -2 < 0` — the code never clamps UV values. -/
theorem uv_negative_counterexample :
    ((normalizeForecast "London" wdNegUv).map (fun r => r.current.uv_index)) =
      some (-2) ∧ ((-2 : ℚ) < 0) := by
  refine ⟨?_, by norm_num⟩
  rw [normalizeForecast_eq_some "London" wdNegUv { curEx with uv_index := some (-2) }
      hrEx dyEx rfl rfl rfl]
  simp only [Option.map_some]
  norm_num [jsRoundOrZero, jsRound]
